import Mathlib

/-!
Verification of the AZF2S-Express resilience / session-bridge core.

Shallow embedding of:
- `retryOperation`, `withDatabaseRetry`, `withNetworkRetry` (middleware/retryPolicy.js, src/unnamed/part_000)
- the Mongo `ConnectionManager` (`initialize`/`connect`) of part_000 and third_party/mongodb.js
- `getCsrfToken`, the NodeBB axios response interceptor, `initializeNodeBBSession`
  and the proxy routers of third_party/nodebb.js and src/unnamed/part_008.

JavaScript numbers are modelled as `Nat` (all constants involved are small
non-negative integers), `null`/`undefined` as `Option`, thrown errors as
`Except`, and the hidden I/O (upstream HTTP calls, handshakes) as explicit
oracle functions plus counters recording how many calls were issued.
-/

namespace RetryPolicy

/-- Options object accepted by `retryOperation`; a field value `0` models a
JS falsy value (`undefined`, `0`, `NaN`), which the `||` defaulting replaces. -/
structure RetryOptions where
  maxRetries : Nat
  initialDelay : Nat
  factor : Nat
  deriving Repr, DecidableEq

/-- `options.maxRetries || 3` -/
def RetryOptions.effMaxRetries (o : RetryOptions) : Nat :=
  if o.maxRetries = 0 then 3 else o.maxRetries

/-- `options.initialDelay || 1000` -/
def RetryOptions.effInitialDelay (o : RetryOptions) : Nat :=
  if o.initialDelay = 0 then 1000 else o.initialDelay

/-- `options.factor || 2` -/
def RetryOptions.effFactor (o : RetryOptions) : Nat :=
  if o.factor = 0 then 2 else o.factor

/-- Observable outcome of a `retryOperation` run: the value returned or the
error thrown (`none` models an `undefined` `lastError`), the number of times
the wrapped operation was invoked, and the backoff delays awaited between
consecutive invocations, in order. -/
structure RetryTrace (ε α : Type) where
  result : Except (Option ε) α
  calls : Nat
  delays : List Nat

/-- The `while (attempt < maxRetries)` loop of `retryOperation`.
`op n` is the outcome of invocation number `n` (0-based). On a caught error
the code increments `attempt`, breaks out (throwing `lastError`) when
`attempt >= maxRetries`, and otherwise waits
`initialDelay * factor ^ (attempt - 1)` before the next iteration. -/
def retryLoop (op : Nat → Except ε α) (m d f : Nat) (attempt : Nat)
    (lastError : Option ε) : RetryTrace ε α :=
  if h : attempt < m then
    match op attempt with
    | .ok v => ⟨.ok v, 1, []⟩
    | .error e =>
      if m ≤ attempt + 1 then
        ⟨.error (some e), 1, []⟩
      else
        let r := retryLoop op m d f (attempt + 1) (some e)
        ⟨r.result, r.calls + 1, d * f ^ attempt :: r.delays⟩
  else
    ⟨.error lastError, 0, []⟩
termination_by m - attempt

/-- `retryOperation(operation, options)`: applies the `||` defaults and runs
the retry loop from `attempt = 0` with `lastError` undefined. -/
def retryOperation (op : Nat → Except ε α) (options : RetryOptions) : RetryTrace ε α :=
  retryLoop op options.effMaxRetries options.effInitialDelay options.effFactor 0 none

/-- Defaults bound by `withDatabaseRetry`. -/
def databaseRetryDefaults : RetryOptions := ⟨3, 500, 1⟩

/-- Defaults bound by `withNetworkRetry`. -/
def networkRetryDefaults : RetryOptions := ⟨3, 200, 2⟩

/-- Connection retry settings of the Mongo module (`RETRY`). -/
def RETRY_MAX_ATTEMPTS : Nat := 3

def RETRY_INITIAL_BACKOFF_MS : Nat := 1000

def RETRY_MAX_BACKOFF_MS : Nat := 10000

/-- An always-failing `Unit`-valued error stream, used for concrete runs. -/
def alwaysFailU : Nat → Unit := fun _ => ()

end RetryPolicy

namespace NodeBB

/-- Upstream answer to `GET /api/config`: `response.data.csrf_token`
(`none` models an absent/falsy field) and the optional `Set-Cookie` header. -/
structure ConfigResponse where
  csrfToken : Option String
  setCookie : Option (List String)
  deriving Repr, DecidableEq

/-- The `{token, cookies}` pair `getCsrfToken` resolves with. -/
structure TokenFetchResult where
  token : Option String
  cookies : Option (List String)
  deriving Repr, DecidableEq

/-- An upstream HTTP outcome as axios reports it: a resolved response with a
body, or a rejected one carrying `error.response.status` and its data. -/
inductive UpResponse (α : Type) where
  | ok (v : α)
  | httpErr (status : Nat) (body : String)
  deriving Repr, DecidableEq

/-- `error.response.status === 401 || error.response.status === 403` -/
def isAuthStatus (s : Nat) : Bool := s == 401 || s == 403

/-- Observable trace of one `nodeBBAxios(config)` call: the outcome delivered
to the caller, how many times the proxied endpoint itself was hit, and how
many `getCsrfToken` refreshes (`GET /api/config`) the response interceptor
issued. -/
structure SendTrace (α : Type) where
  result : UpResponse α
  upstreamCalls : Nat
  tokenFetches : Nat
  deriving Repr, DecidableEq

/-- The re-entry `nodeBBAxios(originalRequest)` performed by the response
interceptor: `originalRequest._retry` is already `true`, so the 401/403
branch of the interceptor is skipped and any error is rejected unchanged. -/
def sendRetried (responses : Nat → UpResponse α) : SendTrace α :=
  match responses 1 with
  | .ok v => ⟨.ok v, 1, 0⟩
  | .httpErr s b => ⟨.httpErr s b, 1, 0⟩

/-- A `nodeBBAxios` call as seen through the response interceptor of
third_party/nodebb.js (and, identically, src/unnamed/part_008).
`responses n` is the upstream answer to the `n`-th transmission of this
request; `refresh` is the outcome of the `getCsrfToken` call the interceptor
makes on a first 401/403. On a 401/403 with `_retry` unset, the interceptor
sets `_retry`, refreshes the token (one fetch), and retries once; when the
refresh itself fails or yields no token, the original error is rejected. -/
def send (responses : Nat → UpResponse α) (refresh : Except String TokenFetchResult) :
    SendTrace α :=
  match responses 0 with
  | .ok v => ⟨.ok v, 1, 0⟩
  | .httpErr s b =>
    if isAuthStatus s then
      match refresh with
      | .error _ => ⟨.httpErr s b, 1, 1⟩
      | .ok f =>
        match f.token with
        | none => ⟨.httpErr s b, 1, 1⟩
        | some _ =>
          let r := sendRetried responses
          ⟨r.result, r.upstreamCalls + 1, r.tokenFetches + 1⟩
    else ⟨.httpErr s b, 1, 0⟩

/-- `data?.status?.code` of the login response body. -/
structure LoginBody where
  statusCode : Option String
  deriving Repr, DecidableEq

/-- The `NodeBBError` values `initializeNodeBBSession` can throw at the login
step. -/
inductive NodeBBErrorKind where
  | authFailed
  | requestFailed (status : Nat)
  | serviceUnavailable
  deriving Repr, DecidableEq

inductive LoginStageOutcome where
  | proceed (body : LoginBody)
  | failed (e : NodeBBErrorKind)
  deriving Repr, DecidableEq

/-- The login step of `initializeNodeBBSession` (third_party/nodebb.js): the
POST to `/api/v3/utilities/login` goes out through `this.api`, i.e. through
the auth-retry response interceptor. A resolved response whose body lacks
`status.code === "ok"` becomes `NodeBBError "NodeBB authentication failed"`
(401); a rejected response with an `error.response` is mapped by the catch
block to `NodeBBError "NodeBB request failed"` with the upstream status.
The second component counts login POSTs actually sent upstream. -/
def loginStage (loginResponses : Nat → UpResponse LoginBody)
    (refresh : Except String TokenFetchResult) : LoginStageOutcome × Nat :=
  let t := send loginResponses refresh
  match t.result with
  | .ok body =>
    if body.statusCode = some "ok" then (.proceed body, t.upstreamCalls)
    else (.failed .authFailed, t.upstreamCalls)
  | .httpErr s _ => (.failed (.requestFailed s), t.upstreamCalls)

/-- `req.session.nodeBB` as stored in the local session. -/
structure SessionData where
  cookies : Option (List String)
  csrfToken : Option String
  deriving Repr, DecidableEq

/-- JS truthiness of a string value: `null`/`undefined` and `""` are falsy. -/
def tokenTruthy : Option String → Bool
  | none => false
  | some t => !(t == "")

/-- JS truthiness of `cookies?.[0]`: absent array, empty array, or an empty
first string are all falsy. -/
def firstCookieTruthy : Option (List String) → Bool
  | none => false
  | some cs =>
    match cs.head? with
    | none => false
    | some c => !(c == "")

/-- JS truthiness of `cookies` itself: an array is truthy even when empty. -/
def cookiesTruthy : Option (List String) → Bool
  | none => false
  | some _ => true

/-- Upstream response seen by the proxy route handler: status, body, and the
`Set-Cookie` header if the upstream issued one. -/
structure UpstreamHttp where
  status : Nat
  body : String
  setCookie : Option (List String)
  deriving Repr, DecidableEq

/-- What the proxy route writes back to its caller. -/
structure ClientResponse where
  status : Nat
  body : String
  setCookies : List String
  deriving Repr, DecidableEq


end NodeBB

namespace NodeBBJs

open NodeBB

/-- `getCsrfToken` of third_party/nodebb.js. One upstream
`GET /api/config` per call — there is no cache and no TTL. With a token in
the body it resolves `{token, cookies: response.headers['set-cookie'] ||
cookies}`; with no token it resolves `{token: null, cookies: null}`; a
network error is rethrown. The second component counts upstream fetches. -/
def getCsrfToken (resp : Except String ConfigResponse)
    (cookies : Option (List String)) : Except String TokenFetchResult × Nat :=
  match resp with
  | .error e => (.error e, 1)
  | .ok r =>
    match r.csrfToken with
    | some t => (.ok ⟨some t, r.setCookie.orElse fun _ => cookies⟩, 1)
    | none => (.ok ⟨none, none⟩, 1)

/-- The success path of the proxy route of third_party/nodebb.js
(`createProxyRouter`): relays upstream status and body; when the success
interceptor attached `sessionCookies` (i.e. the upstream sent `Set-Cookie`),
it rewrites `req.session.nodeBB.cookies` and appends each cookie to the
client response. -/
def relaySuccess (sess : SessionData) (resp : UpstreamHttp) :
    ClientResponse × SessionData :=
  match resp.setCookie with
  | some cs => (⟨resp.status, resp.body, cs⟩, { sess with cookies := some cs })
  | none => (⟨resp.status, resp.body, []⟩, sess)

inductive EnsureOutcome where
  | unauthenticated
  | sessionMissing
  | internalError
  | proceed
  deriving Repr, DecidableEq

/-- `!req.session.nodeBB?.cookies || !req.session.nodeBB?.csrfToken`,
negated: the session-completeness test of `ensureNodeBBSession`. -/
def sessionComplete (sess : Option SessionData) : Bool :=
  match sess with
  | none => false
  | some s => cookiesTruthy s.cookies && tokenTruthy s.csrfToken

/-- `ensureNodeBBSession` middleware of third_party/nodebb.js. When the
stored session is incomplete but passport user data with a username is
present, it calls `getCsrfToken(existingCookies)` — one upstream call —
repairs the session fields that came back truthy, and proceeds; only without
user data does it answer 401 `NodeBB session not found`. Returns the
outcome, the session after the middleware, and the number of upstream calls
issued. -/
def ensureNodeBBSession (isAuth : Bool) (sess : Option SessionData)
    (username : Option String) (fetch : Except String TokenFetchResult) :
    EnsureOutcome × Option SessionData × Nat :=
  if !isAuth then (.unauthenticated, sess, 0)
  else if sessionComplete sess then (.proceed, sess, 0)
  else if tokenTruthy username then
    match fetch with
    | .error _ => (.internalError, sess, 1)
    | .ok f =>
      let s₀ := sess.getD ⟨none, none⟩
      let s₁ := match f.token with
        | some t => { s₀ with csrfToken := some t }
        | none => s₀
      let s₂ := match f.cookies with
        | some cs => { s₁ with cookies := some cs }
        | none => s₁
      (.proceed, some s₂, 1)
  else (.sessionMissing, sess, 0)

end NodeBBJs

namespace Part008

open NodeBB

/-- `getCsrfToken` of src/unnamed/part_008. Same as the nodebb.js variant
except for cookie precedence: `cookies: cookies ||
response.headers['set-cookie']` — existing session cookies are kept, a fresh
fetch never silently replaces them. -/
def getCsrfToken (resp : Except String ConfigResponse)
    (cookies : Option (List String)) : Except String TokenFetchResult × Nat :=
  match resp with
  | .error e => (.error e, 1)
  | .ok r =>
    match r.csrfToken with
    | some t => (.ok ⟨some t, cookies.orElse fun _ => r.setCookie⟩, 1)
    | none => (.ok ⟨none, none⟩, 1)

/-- Headers the request interceptor decorates. -/
structure AxiosHeaders where
  csrf : Option String
  cookie : Option String
  deriving Repr, DecidableEq

def joinedCookies : List String → String := String.intercalate "; "

/-- The request interceptor of src/unnamed/part_008: with both
`config.sessionToken` and `config.sessionCookies` present it reuses them;
otherwise it fetches via `getCsrfToken` and rejects with
`"Failed to get CSRF token"` when no token came back. -/
def requestInterceptor (sessionToken : Option String)
    (sessionCookies : Option (List String))
    (fetch : Except String TokenFetchResult) (headers : AxiosHeaders) :
    Except String AxiosHeaders :=
  match sessionToken, sessionCookies with
  | some t, some cs =>
    .ok { headers with csrf := some t, cookie := some (joinedCookies cs) }
  | _, _ =>
    match fetch with
    | .error e => .error e
    | .ok f =>
      match f.token with
      | none => .error "Failed to get CSRF token"
      | some t =>
        let h₁ : AxiosHeaders := { headers with csrf := some t }
        match f.cookies with
        | some cs => .ok { h₁ with cookie := some (joinedCookies cs) }
        | none => .ok h₁

/-- The session guard of the part_008 proxy router:
`!req.session?.nodeBB?.cookies?.[0] || !req.session?.nodeBB?.csrfToken`. -/
def sessionComplete (sess : Option SessionData) : Bool :=
  match sess with
  | none => false
  | some s => firstCookieTruthy s.cookies && tokenTruthy s.csrfToken

inductive ProxyOutcome (α : Type) where
  | unauthenticated
  | sessionMissing
  | relayed (t : SendTrace α)
  deriving Repr, DecidableEq

/-- The proxy middleware of src/unnamed/part_008 (`createProxyRouter`):
rejects unauthenticated callers with 401; answers 401 `NodeBB session not
found` when the stored session lacks a first cookie or a csrf token, without
touching the upstream; otherwise forwards through `makeRequest` (hence
through the interceptors). The second component counts every upstream HTTP
call issued (data calls plus token fetches). -/
def proxyForward (isAuth : Bool) (sess : Option SessionData)
    (responses : Nat → UpResponse α) (refresh : Except String TokenFetchResult) :
    ProxyOutcome α × Nat :=
  if !isAuth then (.unauthenticated, 0)
  else if sessionComplete sess then
    let t := NodeBB.send responses refresh
    (.relayed t, t.upstreamCalls + t.tokenFetches)
  else (.sessionMissing, 0)

/-- The success path of the part_008 proxy route: it deletes the upstream
`Set-Cookie` header (`delete response.headers['set-cookie']`) before
relaying status and body, and never rewrites `req.session.nodeBB.cookies`. -/
def relaySuccess (sess : SessionData) (resp : UpstreamHttp) :
    ClientResponse × SessionData :=
  (⟨resp.status, resp.body, []⟩, sess)

end Part008

namespace NodeBB

/-- Two successive `getCsrfToken` calls (part_008 variant) and the total
number of upstream `GET /api/config` fetches they perform. -/
def getCsrfTokenTwiceFetches (resp₁ resp₂ : Except String ConfigResponse)
    (cookies : Option (List String)) : Nat :=
  (Part008.getCsrfToken resp₁ cookies).2 + (Part008.getCsrfToken resp₂ cookies).2

end NodeBB

namespace MongoConn

open RetryPolicy

/-- The module-level connection state of middleware/retryPolicy.js
(src/unnamed/part_000) and third_party/mongodb.js: the cached `MongoClient`
(a fresh id per `new MongoClient` construction, drawn from `nextId`), the
`connected` flag, the selected database, the `lastError` side channel, and a
count of the network handshakes (`client.connect()`) performed so far. -/
structure ConnState where
  client : Option Nat
  connected : Bool
  db : Option String
  lastError : Option String
  handshakes : Nat
  nextId : Nat
  deriving Repr, DecidableEq

/-- The client-initialization function of the Mongo module (source name
`initialize`): builds the URL from configuration and constructs a fresh
`MongoClient` without connecting; when required parameters are missing it
records `lastError` and returns false. -/
def initClient (configOk : Bool) (s : ConnState) : Bool × ConnState :=
  if configOk then
    (true, { s with client := some s.nextId, nextId := s.nextId + 1 })
  else
    (false, { s with lastError := some "Missing required MongoDB parameters" })

/-- The `while (attempts < RETRY.MAX_ATTEMPTS)` handshake loop of `connect`,
reindexed by `remaining = RETRY.MAX_ATTEMPTS - attempts` so the recursion is
structural: `remaining = 0` is the loop guard failing, and the
`attempts >= RETRY.MAX_ATTEMPTS` break-and-throw after an increment is
`remaining - 1 = 0`. `net k` tells whether the `k`-th `client.connect()`
handshake of the process succeeds; a successful handshake sets `connected`
and selects the database, and the loop returns the already-constructed
client `cl`. The backoff waits (clamped to `RETRY.MAX_BACKOFF_MS`, ±10%
jitter) have no observable effect on the state modelled here. -/
def connectLoop (net : Nat → Bool) (dbName : String) (cl : Nat) :
    Nat → ConnState → Except String Nat × ConnState
  | 0, s => (.error "Failed to connect to MongoDB", s)
  | remaining + 1, s =>
    if net s.handshakes then
      (.ok cl, { s with handshakes := s.handshakes + 1, connected := true,
                        db := some dbName })
    else
      let s₁ := { s with handshakes := s.handshakes + 1,
                         lastError := some "connection failed" }
      if remaining = 0 then (.error "Failed to connect to MongoDB", s₁)
      else connectLoop net dbName cl remaining s₁

/-- `connect()` of the Mongo module: lazily constructs the client when
absent (throwing when that fails), returns the existing client immediately
when `connected && db` without any handshake, and otherwise runs the bounded
handshake loop. -/
def connect (configOk : Bool) (net : Nat → Bool) (dbName : String)
    (s : ConnState) : Except String Nat × ConnState :=
  let p :=
    match s.client with
    | none => initClient configOk s
    | some _ => (true, s)
  if p.1 then
    match p.2.client with
    | some cl =>
      if p.2.connected && p.2.db.isSome then (.ok cl, p.2)
      else connectLoop net dbName cl RETRY_MAX_ATTEMPTS p.2
    | none => (.error "Cannot initialize MongoDB client", p.2)
  else (.error "Cannot initialize MongoDB client", p.2)

end MongoConn

namespace RetryPolicy

theorem retryOptions_eff_pos (o : RetryOptions) :
    1 ≤ o.effMaxRetries ∧ 1 ≤ o.effInitialDelay ∧ 1 ≤ o.effFactor := by
  refine ⟨?_, ?_, ?_⟩ <;>
    simp only [RetryOptions.effMaxRetries, RetryOptions.effInitialDelay,
      RetryOptions.effFactor] <;>
    split <;> omega

/-- Closed form of the loop on an operation that fails at every invocation:
it runs `m - i` more invocations, throws the error of the last one, and the
delays waited are `d * f ^ a` for `a = i, i+1, …, m-2`. -/
theorem retryLoop_allFail (errs : Nat → ε) (m d f : Nat) :
    ∀ i (last : Option ε), i < m →
      retryLoop (α := α) (fun n => .error (errs n)) m d f i last =
        ⟨.error (some (errs (m - 1))), m - i,
          (List.range (m - 1 - i)).map (fun k => d * f ^ (i + k))⟩ := by
  suffices h : ∀ fuel i (last : Option ε), m - i ≤ fuel → i < m →
      retryLoop (α := α) (fun n => .error (errs n)) m d f i last =
        ⟨.error (some (errs (m - 1))), m - i,
          (List.range (m - 1 - i)).map (fun k => d * f ^ (i + k))⟩ by
    intro i last hi
    exact h (m - i) i last le_rfl hi
  intro fuel
  induction fuel with
  | zero =>
    intro i last hle hi
    omega
  | succ n ih =>
    intro i last hle hi
    rw [retryLoop]
    rw [dif_pos hi]
    by_cases hlast : m ≤ i + 1
    · have hmi : m = i + 1 := by omega
      simp only [hlast, if_true]
      subst hmi
      simp
    · simp only [hlast, if_false]
      rw [ih (i + 1) (some (errs i)) (by omega) (by omega)]
      have hc : m - (i + 1) + 1 = m - i := by omega
      have hn : m - 1 - i = (m - 1 - (i + 1)) + 1 := by omega
      have hfun : ((fun k => d * f ^ (i + k)) ∘ Nat.succ) =
          (fun k => d * f ^ (i + 1 + k)) := by
        funext k
        simp only [Function.comp_apply]
        congr 1
        · congr 1
          omega
      rw [RetryTrace.mk.injEq]
      refine ⟨rfl, hc, ?_⟩
      rw [hn, List.range_succ_eq_map, List.map_cons, List.map_map, hfun,
        Nat.add_zero]
      rfl

/-- C1: for every operation that fails on every attempt, `retryOperation`
invokes the operation exactly `maxAttempts` (= effective `maxRetries`) times
and then rethrows the error of the last invocation unchanged and unwrapped
(`throw lastError`). -/
theorem retryOperation_allFail_exhausts (errs : Nat → ε) (options : RetryOptions) :
    (retryOperation (α := α) (fun n => .error (errs n)) options).calls =
        options.effMaxRetries ∧
    (retryOperation (α := α) (fun n => .error (errs n)) options).result =
        .error (some (errs (options.effMaxRetries - 1))) := by
  rw [retryOperation,
    retryLoop_allFail errs options.effMaxRetries options.effInitialDelay
      options.effFactor 0 none (retryOptions_eff_pos options).1]
  exact ⟨by simp, rfl⟩

/-- C4 amended: between consecutive attempts `retryOperation` waits exactly
`initialDelay * factor ^ (attempt - 1)` — there is no `maxDelay` clamp and no
jitter in `retryOperation` (the clamped, jittered backoff exists only in the
Mongo `connect` loop). -/
theorem retryOperation_delays_unclamped (errs : Nat → ε) (options : RetryOptions) :
    (retryOperation (α := α) (fun n => .error (errs n)) options).delays =
      (List.range (options.effMaxRetries - 1)).map
        (fun k => options.effInitialDelay * options.effFactor ^ k) := by
  rw [retryOperation,
    retryLoop_allFail errs options.effMaxRetries options.effInitialDelay
      options.effFactor 0 none (retryOptions_eff_pos options).1]
  simp

/-- C4 counterexample: an always-failing operation under
`{maxRetries: 6, initialDelay: 1000, factor: 2}` waits
1000, 2000, 4000, 8000, 16000 ms — the last delay exceeds 10000 ms, the only
`maxDelay`-style constant in the source (`RETRY.MAX_BACKOFF_MS`, applied only
by the Mongo `connect` loop), so the delay of `retryOperation` is not
`min(maxDelay, initialDelay * factor ^ (attempt - 1))` and is not clamped. -/
theorem retryOperation_delay_not_clamped_cex :
    (retryOperation (α := Unit) (fun n => .error (alwaysFailU n)) ⟨6, 1000, 2⟩).delays =
        [1000, 2000, 4000, 8000, 16000] ∧
    RETRY_MAX_BACKOFF_MS < 16000 ∧ min RETRY_MAX_BACKOFF_MS 16000 ≠ 16000 := by
  refine ⟨?_, by decide, by decide⟩
  rw [retryOperation,
    retryLoop_allFail alwaysFailU (RetryOptions.effMaxRetries ⟨6, 1000, 2⟩)
      (RetryOptions.effInitialDelay ⟨6, 1000, 2⟩) (RetryOptions.effFactor ⟨6, 1000, 2⟩)
      0 none (by decide)]
  decide

/-- C10: a falsy option value (`maxRetries = 0`, `initialDelay = 0`,
`factor = 0`) is silently replaced by the built-in default (3 attempts,
1000 ms, factor 2): an always-failing operation under `maxRetries = 0` is
attempted exactly 3 times with delays 1000 and 2000 ms, and no caller can
obtain fewer than one attempt or a zero delay through the options object. -/
theorem retryOperation_falsy_defaults (errs : Nat → ε) :
    RetryOptions.effMaxRetries ⟨0, 0, 0⟩ = 3 ∧
    RetryOptions.effInitialDelay ⟨0, 0, 0⟩ = 1000 ∧
    RetryOptions.effFactor ⟨0, 0, 0⟩ = 2 ∧
    (retryOperation (α := α) (fun n => .error (errs n)) ⟨0, 0, 0⟩).calls = 3 ∧
    (retryOperation (α := α) (fun n => .error (errs n)) ⟨0, 0, 0⟩).delays = [1000, 2000] ∧
    (∀ o : RetryOptions, 1 ≤ o.effMaxRetries ∧ 1 ≤ o.effInitialDelay ∧ 1 ≤ o.effFactor) := by
  have h := retryLoop_allFail (α := α) errs (RetryOptions.effMaxRetries ⟨0, 0, 0⟩)
    (RetryOptions.effInitialDelay ⟨0, 0, 0⟩) (RetryOptions.effFactor ⟨0, 0, 0⟩)
    0 none (by decide)
  rw [retryOperation] at *
  refine ⟨rfl, rfl, rfl, ?_, ?_, retryOptions_eff_pos⟩
  · rw [h]
    rfl
  · rw [h]
    rfl


end RetryPolicy

namespace NodeBB

/-- C2: for a proxied request whose upstream response is 401/403, the
response interceptor acquires a fresh token (exactly one `getCsrfToken`
fetch — there is no token cache to invalidate, so a fresh fetch is the
refresh) and retries the forward exactly once (exactly two upstream calls in
total); when the retried request also fails with 401/403 the second failure
is surfaced to the caller unchanged, and `_retry` prevents any further
retry. -/
theorem interceptor_retries_once (responses : Nat → UpResponse α)
    (f : TokenFetchResult) (t : String) (s s₂ : Nat) (b b₂ : String)
    (h₀ : responses 0 = .httpErr s b) (h₁ : responses 1 = .httpErr s₂ b₂)
    (hs : isAuthStatus s = true) (hs₂ : isAuthStatus s₂ = true)
    (ht : f.token = some t) :
    send responses (.ok f) = ⟨.httpErr s₂ b₂, 2, 1⟩ := by
  simp [send, sendRetried, h₀, h₁, hs, ht]

theorem interceptor_retries_once_witness :
    send (α := Unit)
        (fun i => if i = 0 then .httpErr 403 "denied-first" else .httpErr 403 "denied-second")
        (.ok ⟨some "fresh-token", none⟩) =
      ⟨.httpErr 403 "denied-second", 2, 1⟩ :=
  interceptor_retries_once
    (fun i => if i = 0 then .httpErr 403 "denied-first" else .httpErr 403 "denied-second")
    ⟨some "fresh-token", none⟩ "fresh-token" 403 403 "denied-first" "denied-second"
    rfl rfl rfl rfl rfl

/-- C5 counterexample: a login attempt whose upstream answers the POST to
`/api/v3/utilities/login` with status 401 is retried — the shared response
interceptor refreshes the token and re-sends the login request, so two login
POSTs go upstream, contradicting `never retried`; and the surfaced error is
`NodeBBError "NodeBB request failed"`, not the authentication-failed one. -/
theorem login_retried_on_401_cex :
    loginStage (fun _ => .httpErr 401 "Invalid credentials")
        (.ok ⟨some "fresh", none⟩) =
      (.failed (.requestFailed 401), 2) ∧ (2 : Nat) ≠ 1 := by
  constructor
  · rfl
  · decide

/-- C5 amended: a login response that resolves (2xx) with a body lacking
`status.code === "ok"` yields `NodeBBError "NodeBB authentication failed"`
(401) and the login POST is sent exactly once — this branch is never
retried; but a login rejected with a 401/403 status code is first retried
exactly once by the auth interceptor (two POSTs), after which the failure is
surfaced as `NodeBBError "NodeBB request failed"` with the upstream
status. -/
theorem loginStage_failure_paths (loginResponses : Nat → UpResponse LoginBody)
    (refresh : Except String TokenFetchResult) :
    (∀ body, loginResponses 0 = .ok body → body.statusCode ≠ some "ok" →
      loginStage loginResponses refresh = (.failed .authFailed, 1)) ∧
    (∀ s s₂ b b₂ f t, loginResponses 0 = .httpErr s b →
      loginResponses 1 = .httpErr s₂ b₂ → isAuthStatus s = true →
      refresh = .ok f → f.token = some t →
      loginStage loginResponses refresh = (.failed (.requestFailed s₂), 2)) := by
  constructor
  · intro body h₀ hbad
    simp [loginStage, send, h₀, hbad]
  · intro s s₂ b b₂ f t h₀ h₁ hs hr ht
    subst hr
    simp [loginStage, send, sendRetried, h₀, h₁, hs, ht]

theorem loginStage_failure_paths_witness :
    loginStage (fun _ => .ok ⟨some "banned"⟩) (.ok ⟨none, none⟩) =
        (.failed .authFailed, 1) ∧
    loginStage (fun _ => .httpErr 403 "no") (.ok ⟨some "tk", none⟩) =
        (.failed (.requestFailed 403), 2) :=
  ⟨(loginStage_failure_paths (fun _ => .ok ⟨some "banned"⟩) (.ok ⟨none, none⟩)).1
      ⟨some "banned"⟩ rfl (by decide),
   (loginStage_failure_paths (fun _ => .httpErr 403 "no") (.ok ⟨some "tk", none⟩)).2
      403 403 "no" "no" ⟨some "tk", none⟩ "tk" rfl rfl rfl rfl rfl⟩


/-- C3 counterexample: `getCsrfToken` keeps no cached token and has no TTL —
calling it twice in a row (no `invalidate` exists at all) performs two
upstream fetches of the configuration endpoint, not one. -/
theorem getCsrfToken_no_cache_cex :
    getCsrfTokenTwiceFetches (.ok ⟨some "abc", some ["express.sid=1"]⟩)
        (.ok ⟨some "abc", some ["express.sid=1"]⟩) none = 2 ∧ (2 : Nat) ≠ 1 := by
  constructor
  · rfl
  · decide

/-- C3 amended: every `getCsrfToken` call performs exactly one upstream
fetch (both variants — there is no cache, so two calls fetch twice); cookie
continuity holds in the part_008 variant: when existing cookies are passed
and the response carries a token, the returned cookies are exactly the
passed ones, so a refresh never silently starts a new anonymous session. -/
theorem getCsrfToken_fetch_per_call (resp : Except String ConfigResponse)
    (cookies : Option (List String)) :
    (Part008.getCsrfToken resp cookies).2 = 1 ∧
    (NodeBBJs.getCsrfToken resp cookies).2 = 1 ∧
    (∀ r t c, resp = .ok r → r.csrfToken = some t →
      (Part008.getCsrfToken resp (some c)).1 = .ok ⟨some t, some c⟩) := by
  refine ⟨?_, ?_, ?_⟩
  · cases resp with
    | error e => rfl
    | ok r =>
      obtain ⟨rt, rsc⟩ := r
      cases rt <;> rfl
  · cases resp with
    | error e => rfl
    | ok r =>
      obtain ⟨rt, rsc⟩ := r
      cases rt <;> rfl
  · intro r t c hr ht
    subst hr
    obtain ⟨rt, rsc⟩ := r
    simp only [] at ht
    subst ht
    rfl

theorem getCsrfToken_fetch_per_call_witness :
    (Part008.getCsrfToken (.ok ⟨some "abc", none⟩) (some ["express.sid=2"])).1 =
      .ok ⟨some "abc", some ["express.sid=2"]⟩ :=
  (getCsrfToken_fetch_per_call (.ok ⟨some "abc", none⟩) (some ["express.sid=2"])).2.2
    ⟨some "abc", none⟩ "abc" ["express.sid=2"] rfl rfl

/-- C7 counterexample: when the configuration endpoint answers without an
anti-forgery token, `getCsrfToken` does not raise — it resolves with the
degenerate `{token: null, cookies: null}` in both variants. -/
theorem getCsrfToken_degenerate_cex :
    NodeBBJs.getCsrfToken (.ok ⟨none, some ["express.sid=1"]⟩) none =
        (.ok ⟨none, none⟩, 1) ∧
    Part008.getCsrfToken (.ok ⟨none, some ["express.sid=1"]⟩) none =
        (.ok ⟨none, none⟩, 1) := by
  constructor
  · rfl
  · rfl

/-- C7 amended: on a token-less configuration response `getCsrfToken`
resolves with `{token: null, cookies: null}` instead of raising a protocol
error; the callers convert the null token into an error — the part_008
request interceptor rejects with `"Failed to get CSRF token"`. -/
theorem getCsrfToken_missing_token_null (resp : Except String ConfigResponse)
    (r : ConfigResponse) (cookies : Option (List String))
    (headers : Part008.AxiosHeaders)
    (hr : resp = .ok r) (hmiss : r.csrfToken = none) :
    (NodeBBJs.getCsrfToken resp cookies).1 = .ok ⟨none, none⟩ ∧
    (Part008.getCsrfToken resp cookies).1 = .ok ⟨none, none⟩ ∧
    Part008.requestInterceptor none cookies
        (Part008.getCsrfToken resp cookies).1 headers =
      .error "Failed to get CSRF token" := by
  subst hr
  refine ⟨?_, ?_, ?_⟩
  · rw [NodeBBJs.getCsrfToken, hmiss]
  · rw [Part008.getCsrfToken, hmiss]
  · rw [Part008.getCsrfToken, hmiss]
    cases cookies <;> rfl

theorem getCsrfToken_missing_token_null_witness :
    (NodeBBJs.getCsrfToken (.ok ⟨none, none⟩) none).1 = .ok ⟨none, none⟩ ∧
    (Part008.getCsrfToken (.ok ⟨none, none⟩) none).1 = .ok ⟨none, none⟩ ∧
    Part008.requestInterceptor none none
        (Part008.getCsrfToken (.ok ⟨none, none⟩) none).1 ⟨none, none⟩ =
      .error "Failed to get CSRF token" :=
  getCsrfToken_missing_token_null (.ok ⟨none, none⟩) ⟨none, none⟩ none ⟨none, none⟩
    rfl rfl

/-- C6 counterexample: in the third_party/nodebb.js forwarder a stored
session with a missing `csrfToken` does not yield `SessionMissing` when
passport user data is present — `ensureNodeBBSession` issues one upstream
token fetch, repairs the session, and proceeds with the forward. -/
theorem ensure_session_refreshes_cex :
    NodeBBJs.ensureNodeBBSession true (some ⟨some ["express.sid=x"], none⟩)
        (some "alice") (.ok ⟨some "tok", some ["express.sid=y"]⟩) =
      (.proceed, some ⟨some ["express.sid=y"], some "tok"⟩, 1) ∧ (1 : Nat) ≠ 0 := by
  constructor
  · rfl
  · decide

/-- C6 amended: the part_008 forwarder behaves as claimed — an incomplete
stored session (no first cookie or no csrf token) yields the 401-equivalent
`SessionMissing` with zero upstream calls; the nodebb.js variant answers
`SessionMissing` without an upstream call only when no passport username is
available, and otherwise repairs the session with one upstream token
fetch. -/
theorem session_missing_guards (α : Type) (sess : Option NodeBB.SessionData) :
    (∀ (responses : Nat → UpResponse α) refresh,
      Part008.sessionComplete sess = false →
      Part008.proxyForward true sess responses refresh = (.sessionMissing, 0)) ∧
    (∀ fetch, NodeBBJs.sessionComplete sess = false →
      NodeBBJs.ensureNodeBBSession true sess none fetch =
        (.sessionMissing, sess, 0)) := by
  constructor
  · intro responses refresh hinc
    simp [Part008.proxyForward, hinc]
  · intro fetch hinc
    simp [NodeBBJs.ensureNodeBBSession, hinc, NodeBB.tokenTruthy]

theorem session_missing_guards_witness :
    Part008.proxyForward (α := Unit) true (some ⟨some ["express.sid=x"], none⟩)
        (fun _ => .httpErr 500 "unused") (.error "unused") = (.sessionMissing, 0) ∧
    NodeBBJs.ensureNodeBBSession true (some ⟨some ["express.sid=x"], none⟩) none
        (.error "unused") = (.sessionMissing, some ⟨some ["express.sid=x"], none⟩, 0) :=
  ⟨(session_missing_guards Unit (some ⟨some ["express.sid=x"], none⟩)).1
      (fun _ => .httpErr 500 "unused") (.error "unused") rfl,
   (session_missing_guards Unit (some ⟨some ["express.sid=x"], none⟩)).2
      (.error "unused") rfl⟩

/-- C8 counterexample: the part_008 forwarder does not copy upstream
`Set-Cookie` headers back and does not rotate the stored session cookies —
it deletes the header and relays only status and body, so an upstream
response that issues new cookies leaves the caller without them and the
stored session unchanged. -/
theorem relay_strips_cookies_cex :
    Part008.relaySuccess ⟨some ["old=1"], some "tok"⟩ ⟨200, "payload", some ["new=2"]⟩ =
      (⟨200, "payload", []⟩, ⟨some ["old=1"], some "tok"⟩) ∧
    ([] : List String) ≠ ["new=2"] ∧
    (some ["old=1"] : Option (List String)) ≠ some ["new=2"] := by
  refine ⟨rfl, by decide, by decide⟩

/-- C8 amended: the third_party/nodebb.js forwarder behaves as claimed —
upstream status, body and `Set-Cookie` headers are copied back and new
cookies replace the stored session cookies; the part_008 forwarder instead
deletes the `Set-Cookie` header and never updates the stored cookies. -/
theorem relay_cookie_rotation (sess : NodeBB.SessionData) (resp : NodeBB.UpstreamHttp) :
    (∀ cs, resp.setCookie = some cs →
      NodeBBJs.relaySuccess sess resp =
        (⟨resp.status, resp.body, cs⟩, { sess with cookies := some cs })) ∧
    (resp.setCookie = none →
      NodeBBJs.relaySuccess sess resp = (⟨resp.status, resp.body, []⟩, sess)) ∧
    Part008.relaySuccess sess resp = (⟨resp.status, resp.body, []⟩, sess) := by
  refine ⟨?_, ?_, rfl⟩
  · intro cs hcs
    rw [NodeBBJs.relaySuccess, hcs]
  · intro hnone
    rw [NodeBBJs.relaySuccess, hnone]

theorem relay_cookie_rotation_witness :
    NodeBBJs.relaySuccess ⟨some ["old=1"], some "tok"⟩ ⟨200, "payload", some ["new=2"]⟩ =
      (⟨200, "payload", ["new=2"]⟩, ⟨some ["new=2"], some "tok"⟩) :=
  (relay_cookie_rotation ⟨some ["old=1"], some "tok"⟩ ⟨200, "payload", some ["new=2"]⟩).1
    ["new=2"] rfl


end NodeBB

namespace MongoConn

open RetryPolicy

theorem connectLoop_ok_post (net : Nat → Bool) (dbName : String) (cl : Nat) :
    ∀ remaining (s : ConnState) c s',
      connectLoop net dbName cl remaining s = (.ok c, s') →
      c = cl ∧ s'.client = s.client ∧ s'.connected = true ∧
        s'.db = some dbName := by
  intro remaining
  induction remaining with
  | zero =>
    intro s c s' h
    simp [connectLoop] at h
  | succ n ih =>
    intro s c s' h
    rw [connectLoop] at h
    by_cases h2 : net s.handshakes = true
    · rw [if_pos h2] at h
      simp only [Prod.mk.injEq, Except.ok.injEq] at h
      obtain ⟨hcl, hs⟩ := h
      subst hcl
      subst hs
      exact ⟨rfl, rfl, rfl, rfl⟩
    · rw [if_neg h2] at h
      by_cases h3 : n = 0
      · rw [if_pos h3] at h
        simp at h
      · rw [if_neg h3] at h
        obtain ⟨hcl, hclient, hconn, hdb⟩ := ih _ _ _ h
        exact ⟨hcl, hclient, hconn, hdb⟩

theorem connect_ok_post (configOk : Bool) (net : Nat → Bool) (dbName : String)
    (s : ConnState) (c : Nat) (s' : ConnState)
    (h : connect configOk net dbName s = (.ok c, s')) :
    s'.client = some c ∧ s'.connected = true ∧ s'.db.isSome = true := by
  rw [connect] at h
  set p := match s.client with
    | none => initClient configOk s
    | some _ => (true, s) with hp
  by_cases h1 : p.1 = true
  · rw [if_pos h1] at h
    cases hcl : p.2.client with
    | none =>
      rw [hcl] at h
      simp at h
    | some cl =>
      rw [hcl] at h
      simp only [] at h
      by_cases h2 : (p.2.connected && p.2.db.isSome) = true
      · rw [if_pos h2] at h
        simp only [Prod.mk.injEq, Except.ok.injEq] at h
        obtain ⟨hc, hs⟩ := h
        subst hc
        subst hs
        simp only [Bool.and_eq_true] at h2
        exact ⟨hcl, h2.1, h2.2⟩
      · rw [if_neg h2] at h
        obtain ⟨hc, hclient, hconn, hdb⟩ :=
          connectLoop_ok_post net dbName cl RETRY_MAX_ATTEMPTS p.2 c s' h
        subst hc
        refine ⟨hclient.trans hcl, hconn, ?_⟩
        rw [hdb]
        rfl
  · rw [if_neg h1] at h
    simp at h

/-- C9: `connect()` is idempotent — when a call has succeeded (the state is
connected, with a database selected and a client object cached), a further
`connect()` returns the very same client immediately and leaves the whole
state unchanged: no new handshake is performed and no second client object
is constructed. -/
theorem connect_idempotent (configOk : Bool) (net : Nat → Bool)
    (dbName : String) (s : ConnState) (c : Nat) (s' : ConnState)
    (h : connect configOk net dbName s = (.ok c, s')) :
    connect configOk net dbName s' = (.ok c, s') := by
  obtain ⟨hclient, hconn, hdb⟩ := connect_ok_post configOk net dbName s c s' h
  rw [connect, hclient]
  simp [hclient, hconn, hdb]

theorem connect_idempotent_witness :
    connect true (fun _ => true) "development"
        ⟨some 0, true, some "development", none, 1, 1⟩ =
      (.ok 0, ⟨some 0, true, some "development", none, 1, 1⟩) :=
  connect_idempotent true (fun _ => true) "development"
    ⟨none, false, none, none, 0, 0⟩ 0
    ⟨some 0, true, some "development", none, 1, 1⟩ rfl


end MongoConn
